import Mathlib

/-!
Shallow embedding of the Pokedex catalog viewer (`src/script.js`):
the record transformer, the batch fetcher (`loadPokemon`), the
filter/sort/paginate engine (`applyFilters`, `renderPokemon`,
`loadMorePokemon`) and the favorites store (`toggleFavorite`,
`loadFavorites`, `saveFavorites`), together with theorems settling the
spec's claims about them.

External collaborators (the network, `JSON.parse`, `localStorage`,
`String.prototype.localeCompare`) are modelled abstractly: fetches by an
oracle `Nat → Option RawPokemon` (none = rejected promise: network
failure, non-ok response, or decode/transform throw), the persistent
store by the `Stored` datatype, and locale comparison of strings by the
lexicographic order on Lean strings.
-/

namespace Pokedex

/-- A raw API payload, already projected onto the fields
`transformPokemonData` reads: `data.id`, `data.name`,
`data.types.map(t => t.type.name)`,
`data.sprites.other['official-artwork'].front_default` (none if null),
`data.sprites.front_default`, the `(stat.stat.name, stat.base_stat)`
pairs of `data.stats`, `data.height` (decimeters), `data.weight`
(hectograms), `data.abilities.map(a => a.ability.name)` and
`data.moves.map(m => m.move.name)`. -/
structure RawPokemon where
  id : Nat
  name : String
  types : List String
  artwork : Option String
  sprite : Option String
  stats : List (String × Nat)
  height : Nat
  weight : Nat
  abilities : List String
  moves : List String
deriving DecidableEq

/-- The normalized in-memory record built by `transformPokemonData`. -/
structure Record where
  id : Nat
  name : String
  displayName : String
  number : String
  types : List String
  image : Option String
  stats : List (String × Nat)
  height : ℚ
  weight : ℚ
  abilities : List String
  moves : List String
deriving DecidableEq

/-- `capitalizeFirstLetter`: `string.charAt(0).toUpperCase() + string.slice(1)`
(on the empty string this is the empty string). -/
def capitalizeFirstLetter (s : String) : String :=
  match s.data with
  | [] => s
  | c :: rest => String.mk (c.toUpper :: rest)

/-- `id.toString().padStart(3, '0')`: the decimal rendering of `id`,
left-padded with zeros to at least 3 characters. -/
def padStart3 (n : Nat) : String :=
  let s := toString n
  if 3 ≤ s.length then s else String.mk (List.replicate (3 - s.length) '0' ++ s.data)

/-- `transformPokemonData(data)` from `src/script.js`. `image` is
`artwork || sprite` (JS falls back when the artwork field is null);
`height` and `weight` divide the source integers by 10; `moves` keeps
the first 5 entries. -/
def transformPokemonData (d : RawPokemon) : Record :=
  { id := d.id
    name := d.name
    displayName := capitalizeFirstLetter d.name
    number := padStart3 d.id
    types := d.types
    image := match d.artwork with | some a => some a | none => d.sprite
    stats := d.stats
    height := (d.height : ℚ) / 10
    weight := (d.weight : ℚ) / 10
    abilities := d.abilities
    moves := d.moves.take 5 }

/-- JS `String.prototype.includes` on lists of characters: some drop of
`hay` starts with `needle`. -/
def charsInclude (hay needle : List Char) : Bool :=
  (List.range (hay.length + 1)).any (fun i => needle.isPrefixOf (hay.drop i))

/-- JS `hay.includes(needle)` for strings. -/
def strIncludes (hay needle : String) : Bool :=
  charsInclude hay.data needle.data

/-- The three sort keys of the `sortSelect` control: `'number'` (the
default), `'name'` and `'type'`. -/
inductive SortKey
  | number
  | name
  | type
deriving DecidableEq

/-- `this.currentFilters`: search text (stored lowercased), type filter
(`"all"` = off), sort key, and the favorites-only toggle. -/
structure Filters where
  search : String
  type : String
  sort : SortKey
  showFavorites : Bool
deriving DecidableEq

/-- The comparator of `applyFilters`' sort, as a boolean `le` relation:
`'name'` compares `displayName`, `'type'` compares `types[0]`
(totalized here with `""` for an empty list — `sortStepE` below models
the error branch faithfully), and the default compares `id`. -/
def sortLe (k : SortKey) (a b : Record) : Bool :=
  match k with
  | SortKey.name => decide (a.displayName ≤ b.displayName)
  | SortKey.type => decide (a.types.headI ≤ b.types.headI)
  | SortKey.number => decide (a.id ≤ b.id)

/-- The search-filter step of `applyFilters`: when `search` is non-empty
(JS truthiness of a string), keep records whose `name`, lowercased
`displayName`, or padded `number` includes it. -/
def searchFilterStep (s : String) (l : List Record) : List Record :=
  if s = "" then l
  else l.filter (fun p =>
    strIncludes p.name s || strIncludes p.displayName.toLower s || strIncludes p.number s)

/-- The type-filter step of `applyFilters`: when the filter is not
`"all"`, keep records whose `types` contains it. -/
def typeFilterStep (t : String) (l : List Record) : List Record :=
  if t = "all" then l else l.filter (fun p => p.types.contains t)

/-- The favorites-filter step of `applyFilters`: when `showFavorites`,
keep records whose id is in the favorites set. -/
def favoritesFilterStep (showFavorites : Bool) (favorites : List Nat) (l : List Record) :
    List Record :=
  if showFavorites then l.filter (fun p => favorites.contains p.id) else l

/-- Insert `a` after every element `b` of an already-sorted list with
`le b a`: the insertion step of a stable insertion sort. -/
def sortInsert (le : Record → Record → Bool) (a : Record) : List Record → List Record
  | [] => [a]
  | b :: l => if le b a then b :: sortInsert le a l else a :: b :: l

/-- JS `Array.prototype.sort` with a consistent comparator: a stable
comparison sort, modelled as stable insertion sort on the boolean `le`
relation induced by the comparator. -/
def jsSort (le : Record → Record → Bool) (l : List Record) : List Record :=
  l.foldl (fun acc a => sortInsert le a acc) []

/-- The sort step of `applyFilters`. -/
def sortStep (k : SortKey) (l : List Record) : List Record :=
  jsSort (sortLe k) l

/-- The pure core of `applyFilters`: the filtered set as a function of
the full record set, the filter state and the favorites set, applying
search filter, type filter, favorites filter, then the sort. -/
def computeFiltered (pokemon : List Record) (f : Filters) (favorites : List Nat) :
    List Record :=
  sortStep f.sort
    (favoritesFilterStep f.showFavorites favorites
      (typeFilterStep f.type
        (searchFilterStep f.search pokemon)))

/-- The sort step with the error branch made explicit: when sorting by
`'type'`, the JS comparator evaluates `a.types[0].localeCompare(...)`,
which throws a TypeError when `types` is empty (property access on
`undefined`); every record of a list of length ≥ 2 is compared at least
once, so the step fails exactly when some record has no type. The other
two keys never fail. -/
def sortStepE (k : SortKey) (l : List Record) : Option (List Record) :=
  match k with
  | SortKey.type =>
      if l.all (fun r => !r.types.isEmpty) then some (jsSort (sortLe SortKey.type) l)
      else none
  | k => some (jsSort (sortLe k) l)

/-- `applyFilters` with the by-type sort's error branch: `none` when the
sort comparator would access `types[0]` of a record with no types. -/
def computeFilteredE (pokemon : List Record) (f : Filters) (favorites : List Nat) :
    Option (List Record) :=
  sortStepE f.sort
    (favoritesFilterStep f.showFavorites favorites
      (typeFilterStep f.type
        (searchFilterStep f.search pokemon)))

/-- A value `JSON.parse` can return: a number (the naturals cover the
ids this store holds), a string, a boolean, null, an array, or an
object — objects are opaque here, their fields being irrelevant to
`new Set(favoriteIds)`. -/
inductive JsValue
  | num (n : Nat)
  | str (s : String)
  | bool (b : Bool)
  | null
  | arr (elems : List JsValue)
  | obj

/-- SameValueZero, the equality `Set` deduplicates by: value equality
on numbers, strings, booleans and null; reference equality on arrays
and objects — and two freshly parsed arrays or objects are distinct
references, so they never compare equal here. -/
def sameValueZero : JsValue → JsValue → Bool
  | JsValue.num a, JsValue.num b => a == b
  | JsValue.str a, JsValue.str b => a == b
  | JsValue.bool a, JsValue.bool b => a == b
  | JsValue.null, JsValue.null => true
  | _, _ => false

/-- `Set.prototype.add` over JS values: insertion-ordered, duplicates
(by SameValueZero) ignored. -/
def jsSetInsert (s : List JsValue) (x : JsValue) : List JsValue :=
  if s.any (fun y => sameValueZero y x) then s else s ++ [x]

/-- The elements of `new Set(elems)`: first occurrences, in order. -/
def jsSetOfValues (l : List JsValue) : List JsValue :=
  l.foldl jsSetInsert []

/-- The value found under the `'pokemonMasterFavorites'` key of
`localStorage`: absent (`getItem` returns null), a string `JSON.parse`
rejects (it throws, the `catch` swallows the error), a string encoding
a JSON array of ids — the format `saveFavorites` writes, kept as its
own constructor (it stands for `json (arr (l.map num))`) — or any
other string `JSON.parse` accepts, with the parsed value. -/
inductive Stored
  | absent
  | malformed
  | idArray (l : List Nat)
  | json (v : JsValue)

/-- `new Set(iterable)` / `Set.prototype.add`: insertion-ordered,
duplicates ignored. -/
def setAdd (s : List Nat) (x : Nat) : List Nat :=
  if s.contains x then s else s ++ [x]

/-- `Set.prototype.delete`: remove the element, keep the order of the
rest. -/
def setDelete (s : List Nat) (x : Nat) : List Nat :=
  s.filter (fun y => y ≠ x)

/-- `loadFavorites` from `src/script.js`, as the favorites set it
leaves in place starting from the constructor's `new Set()`. `getItem`
returning null (`if (saved)` false) leaves it empty; a string
`JSON.parse` rejects throws, and the `catch` leaves it empty. A parsed
value is handed to `new Set(favoriteIds)`: an array yields its
elements (first occurrences by SameValueZero, in order), a string is
iterable and yields its characters as one-character strings, null
yields the empty set, and a number, boolean or object makes the `Set`
constructor throw a TypeError — swallowed by the same `catch`, leaving
the empty set. -/
def loadFavorites : Stored → List JsValue
  | Stored.absent => []
  | Stored.malformed => []
  | Stored.idArray l => jsSetOfValues (l.map JsValue.num)
  | Stored.json v =>
    match v with
    | JsValue.arr elems => jsSetOfValues elems
    | JsValue.str s => jsSetOfValues (s.data.map (fun c => JsValue.str (String.mk [c])))
    | _ => []

/-- Whether a parsed store value is a JSON array of ids — the format
the spec documents for this key. -/
def isIdArray : JsValue → Bool
  | JsValue.arr elems => elems.all (fun v => match v with | JsValue.num _ => true | _ => false)
  | _ => false

/-- `this.pokemonPerPage = 20`. -/
def pokemonPerPage : Nat := 20

/-- The state a `PokemonMaster` instance owns: the accumulated record
set, the filtered set, the favorites set, the persisted store value,
the current page, the busy flag and the filter state. -/
structure AppState where
  pokemon : List Record
  filteredPokemon : List Record
  favorites : List Nat
  stored : Stored
  currentPage : Nat
  isLoading : Bool
  filters : Filters

/-- The constructor's initial state (before `init()` runs). -/
def initState : AppState :=
  { pokemon := []
    filteredPokemon := []
    favorites := []
    stored := Stored.absent
    currentPage := 1
    isLoading := false
    filters := { search := "", type := "all", sort := SortKey.number, showFavorites := false } }

/-- The `applyFilters` method: recompute `filteredPokemon` from the
current record set, filter state and favorites, and reset `currentPage`
to 1 (rendering and stat updates have no state effect). -/
def applyFilters (st : AppState) : AppState :=
  { st with
    filteredPokemon := computeFiltered st.pokemon st.filters st.favorites
    currentPage := 1 }

/-- `Math.ceil(filteredPokemon.length / pokemonPerPage)`. -/
def totalPages (st : AppState) : Nat :=
  (st.filteredPokemon.length + (pokemonPerPage - 1)) / pokemonPerPage

/-- `loadMorePokemon`: dropped while loading; a no-op at or beyond the
last page; otherwise advance `currentPage` by one. -/
def loadMorePokemon (st : AppState) : AppState :=
  if st.isLoading then st
  else if totalPages st ≤ st.currentPage then st
  else { st with currentPage := st.currentPage + 1 }

/-- JS `Array.prototype.slice(start, stop)` on record lists. -/
def jsSlice (l : List Record) (start stop : Nat) : List Record :=
  (l.drop start).take (stop - start)

/-- The slice `renderPokemon` shows:
`filteredPokemon.slice(0, currentPage * pokemonPerPage)`. -/
def visibleSlice (st : AppState) : List Record :=
  jsSlice st.filteredPokemon 0 (st.currentPage * pokemonPerPage)

/-- `saveFavorites`: persist `Array.from(this.favorites)` under the
favorites key (the success path; a storage failure is caught and leaves
the store unchanged). -/
def saveFavorites (st : AppState) : AppState :=
  { st with stored := Stored.idArray st.favorites }

/-- `toggleFavorite(pokemonId)`: delete the id if present else add it,
persist via `saveFavorites`, re-run `applyFilters`. The returned
boolean records which branch ran — `true` for the
`'Added to favorites!'` notification (the new membership), `false` for
`'Removed from favorites'`. -/
def toggleFavorite (st : AppState) (pokemonId : Nat) : AppState × Bool :=
  if st.favorites.contains pokemonId then
    let st := { st with favorites := setDelete st.favorites pokemonId }
    (applyFilters (saveFavorites st), false)
  else
    let st := { st with favorites := setAdd st.favorites pokemonId }
    (applyFilters (saveFavorites st), true)

/-- The ids fetched by one batch iteration of `loadPokemon`: `j` from
`i` while `j < i + batchSize && j ≤ total`. -/
def batchIds (i batchSize total : Nat) : List Nat :=
  (List.range' i batchSize).filter (fun j => j ≤ total)

/-- One batch's successful records: `Promise.allSettled` settles in the
array's request order; `filter(fulfilled).map(value)` keeps the
successes in that order. -/
def batchRecords (fetch : Nat → Option RawPokemon) (i batchSize total : Nat) : List Record :=
  (batchIds i batchSize total).filterMap (fun j => (fetch j).map transformPokemonData)

/-- The batch loop of `loadPokemon` over the accumulated record list:
`for (i = 1; i <= total; i += batchSize)`. The loop runs at most
`total` iterations when `batchSize ≥ 1`, so fuel `total + 1` is enough;
`fetch` is the oracle for `fetchPokemonData` (none = rejected). -/
def loadLoop (fetch : Nat → Option RawPokemon) (total batchSize : Nat) :
    Nat → Nat → List Record
  | 0, _ => []
  | fuel + 1, i =>
    if i ≤ total then
      batchRecords fetch i batchSize total ++ loadLoop fetch total batchSize fuel (i + batchSize)
    else []

/-- `loadPokemon`'s accumulated record list, parametrized by the range
bound and batch size (the source instantiates `total = 151`,
`batchSize = 20`). -/
def loadPokemon (fetch : Nat → Option RawPokemon) (total batchSize : Nat) : List Record :=
  loadLoop fetch total batchSize (total + 1) 1

/-- The batch loop of `loadPokemon` acting on the full state, keeping
the conditional `if (i === 1) this.applyFilters()` of the source:
every batch is appended to `this.pokemon`, but only the first triggers
a recompute. -/
def loadLoopState (fetch : Nat → Option RawPokemon) (total batchSize : Nat) :
    Nat → Nat → AppState → AppState
  | 0, _, st => st
  | fuel + 1, i, st =>
    if i ≤ total then
      let st := { st with pokemon := st.pokemon ++ batchRecords fetch i batchSize total }
      let st := if i = 1 then applyFilters st else st
      loadLoopState fetch total batchSize fuel (i + batchSize) st
    else st

/-- The `loadPokemon` method on the state: set the busy flag, run the
batch loop with the source's `totalPokemon = 151`, `batchSize = 20`,
clear the busy flag. -/
def loadPokemonState (fetch : Nat → Option RawPokemon) (st : AppState) : AppState :=
  let st := { st with isLoading := true }
  let st := loadLoopState fetch 151 20 152 1 st
  { st with isLoading := false }

/-- The user/load events wired up by `setupEventListeners`, each
carrying its payload. -/
inductive Event
  | searchInput (raw : String)
  | clearSearch
  | typeChange (t : String)
  | sortChange (k : SortKey)
  | toggleFavoritesView
  | loadMore
  | toggleFav (pokemonId : Nat)

/-- The event handlers: the search input lowercases its value, each of
the four filter-state handlers mutates its field then calls
`applyFilters`; `loadMore` and the favorite toggle run their methods. -/
def step (st : AppState) : Event → AppState
  | Event.searchInput raw =>
      applyFilters { st with filters := { st.filters with search := raw.toLower } }
  | Event.clearSearch =>
      applyFilters { st with filters := { st.filters with search := "" } }
  | Event.typeChange t =>
      applyFilters { st with filters := { st.filters with type := t } }
  | Event.sortChange k =>
      applyFilters { st with filters := { st.filters with sort := k } }
  | Event.toggleFavoritesView =>
      applyFilters { st with filters := { st.filters with showFavorites := !st.filters.showFavorites } }
  | Event.loadMore => loadMorePokemon st
  | Event.toggleFav pokemonId => (toggleFavorite st pokemonId).1

/-! Concrete data used to instantiate the theorems. -/

/-- A concrete raw payload with the given id. -/
def simpleRaw (j : Nat) : RawPokemon :=
  { id := j, name := "pika", types := ["electric"], artwork := none, sprite := none,
    stats := [("hp", 35)], height := 4, weight := 60, abilities := ["static"],
    moves := ["thunder-shock"] }

/-- A concrete record with the given id. -/
def simpleRec (j : Nat) : Record :=
  transformPokemonData (simpleRaw j)

/-- A fetch oracle where exactly id 13 fails. -/
def fetch13 (j : Nat) : Option RawPokemon :=
  if j = 13 then none else some (simpleRaw j)

/-- A fetch oracle where every id succeeds. -/
def fetchAllOk (j : Nat) : Option RawPokemon :=
  some (simpleRaw j)

/-- A state holding 45 filtered records on page 1. -/
def st45 : AppState :=
  { initState with filteredPokemon := (List.range' 1 45).map simpleRec }

/-! Helper lemmas. -/

lemma range'_filter_le (total : Nat) : ∀ (b i : Nat),
    (List.range' i b).filter (fun j => decide (j ≤ total)) = List.range' i (min b (total + 1 - i))
  | 0, i => by simp
  | b + 1, i => by
    by_cases h : i ≤ total
    · have h1 : min (b + 1) (total + 1 - i) = (min b (total + 1 - (i + 1))) + 1 := by omega
      rw [List.range'_succ, List.filter_cons_of_pos (by simpa using h), h1, List.range'_succ,
        range'_filter_le total b (i + 1)]
    · have h0 : min (b + 1) (total + 1 - i) = 0 := by omega
      rw [h0, List.range'_zero, List.filter_eq_nil_iff]
      intro a ha
      rw [List.mem_range'] at ha
      obtain ⟨k, hk, rfl⟩ := ha
      simp only [decide_eq_true_eq]
      omega

lemma batchIds_eq (i batchSize total : Nat) :
    batchIds i batchSize total = List.range' i (min batchSize (total + 1 - i)) := by
  unfold batchIds
  exact range'_filter_le total batchSize i

lemma loadLoop_eq (fetch : Nat → Option RawPokemon) (total batchSize : Nat)
    (hb : 1 ≤ batchSize) :
    ∀ (fuel i : Nat), total + 1 ≤ fuel + i →
    loadLoop fetch total batchSize fuel i
      = (List.range' i (total + 1 - i)).filterMap (fun j => (fetch j).map transformPokemonData)
  | 0, i, hfuel => by
      have h0 : total + 1 - i = 0 := by omega
      simp [loadLoop, h0]
  | fuel + 1, i, hfuel => by
      rw [loadLoop]
      by_cases h : i ≤ total
      · rw [if_pos h, loadLoop_eq fetch total batchSize hb fuel (i + batchSize) (by omega)]
        unfold batchRecords
        rw [batchIds_eq, ← List.filterMap_append]
        congr 1
        by_cases h2 : i + batchSize ≤ total + 1
        · have hm : min batchSize (total + 1 - i) = batchSize := by omega
          rw [hm, List.range'_append_1]
          congr 1
          omega
        · have h0 : total + 1 - (i + batchSize) = 0 := by omega
          have hm : min batchSize (total + 1 - i) = total + 1 - i := by omega
          simp [h0, hm]
      · rw [if_neg h]
        have h0 : total + 1 - i = 0 := by omega
        simp [h0]

lemma mem_of_mem_sortInsert {le : Record → Record → Bool} {a x : Record} :
    ∀ {l : List Record}, x ∈ sortInsert le a l → x = a ∨ x ∈ l
  | [], h => by simpa [sortInsert] using h
  | b :: l, h => by
    unfold sortInsert at h
    split at h
    · rcases List.mem_cons.mp h with h1 | h2
      · exact Or.inr (List.mem_cons.mpr (Or.inl h1))
      · rcases mem_of_mem_sortInsert h2 with h3 | h4
        · exact Or.inl h3
        · exact Or.inr (List.mem_cons.mpr (Or.inr h4))
    · rcases List.mem_cons.mp h with h1 | h2
      · exact Or.inl h1
      · exact Or.inr h2

lemma mem_of_mem_jsSort_aux {le : Record → Record → Bool} {x : Record} :
    ∀ (l acc : List Record), x ∈ l.foldl (fun acc a => sortInsert le a acc) acc →
      x ∈ acc ∨ x ∈ l
  | [], acc, h => Or.inl h
  | a :: l, acc, h => by
    rcases mem_of_mem_jsSort_aux l (sortInsert le a acc) h with h1 | h2
    · rcases mem_of_mem_sortInsert h1 with h3 | h4
      · exact Or.inr (List.mem_cons.mpr (Or.inl h3))
      · exact Or.inl h4
    · exact Or.inr (List.mem_cons.mpr (Or.inr h2))

lemma mem_of_mem_jsSort {le : Record → Record → Bool} {x : Record} {l : List Record}
    (h : x ∈ jsSort le l) : x ∈ l := by
  rcases mem_of_mem_jsSort_aux l [] h with h1 | h2
  · cases h1
  · exact h2

lemma mem_of_mem_searchFilterStep {s : String} {l : List Record} {r : Record}
    (h : r ∈ searchFilterStep s l) : r ∈ l := by
  unfold searchFilterStep at h
  split at h
  · exact h
  · exact (List.mem_filter.mp h).1

lemma mem_of_mem_typeFilterStep {t : String} {l : List Record} {r : Record}
    (h : r ∈ typeFilterStep t l) : r ∈ l := by
  unfold typeFilterStep at h
  split at h
  · exact h
  · exact (List.mem_filter.mp h).1

lemma mem_of_mem_favoritesFilterStep {b : Bool} {favs : List Nat} {l : List Record} {r : Record}
    (h : r ∈ favoritesFilterStep b favs l) : r ∈ l := by
  unfold favoritesFilterStep at h
  split at h
  · exact (List.mem_filter.mp h).1
  · exact h

/-! The claims. -/

/-- C1: For every total count, every positive batch size and every
assignment of success/failure to the individual id fetches, `loadPokemon`
terminates (it is a total function of its fuel-bounded loop, whose fuel
is shown sufficient) and accumulates exactly the successfully
fetched-and-transformed records, one per succeeding id of `[1, total]`,
in increasing source-id order, failed ids silently dropped — i.e. the
`filterMap` of the fetch-and-transform over `[1, total]`. In particular
all fetches failing yields `[]` with no error raised. -/
theorem loadPokemon_spec (fetch : Nat → Option RawPokemon) (total batchSize : Nat)
    (hb : 1 ≤ batchSize) :
    loadPokemon fetch total batchSize
      = (List.range' 1 total).filterMap (fun j => (fetch j).map transformPokemonData) := by
  unfold loadPokemon
  rw [loadLoop_eq fetch total batchSize hb (total + 1) 1 (by omega)]
  congr 1

/-- Witness for C1: range `[1, 25]` with batch size 20 and only id 13
failing yields exactly 24 records, none with id 13; with every fetch
failing the result is empty. -/
theorem loadPokemon_spec_witness :
    1 ≤ 20
    ∧ loadPokemon fetch13 25 20
        = (List.range' 1 25).filterMap (fun j => (fetch13 j).map transformPokemonData)
    ∧ (loadPokemon fetch13 25 20).length = 24
    ∧ ((loadPokemon fetch13 25 20).map Record.id).contains 13 = false
    ∧ loadPokemon (fun _ => none) 25 20 = [] :=
  ⟨by decide, loadPokemon_spec fetch13 25 20 (by decide), by decide, by decide, by decide⟩

/-- C2: for every non-empty search text, every record kept by the
search-filter step of `applyFilters` includes the text in its `name`,
its lowercased `displayName`, or its padded `number` (substring
containment, not prefix). -/
theorem searchFilterStep_sound (s : String) (l : List Record) (r : Record)
    (hs : s ≠ "") (hr : r ∈ searchFilterStep s l) :
    strIncludes r.name s = true ∨ strIncludes r.displayName.toLower s = true
      ∨ strIncludes r.number s = true := by
  unfold searchFilterStep at hr
  rw [if_neg hs] at hr
  have h := (List.mem_filter.mp hr).2
  simp only [Bool.or_eq_true] at h
  tauto

/-- Witness for C2: the record for id 1 survives the search for
`"pik"` and indeed matches. -/
theorem searchFilterStep_sound_witness :
    strIncludes (simpleRec 1).name "pik" = true
    ∨ strIncludes (simpleRec 1).displayName.toLower "pik" = true
    ∨ strIncludes (simpleRec 1).number "pik" = true :=
  searchFilterStep_sound "pik" [simpleRec 1] (simpleRec 1) (by decide)
    (by unfold searchFilterStep
        rw [if_neg (by decide : ("pik" : String) ≠ "")]
        exact List.mem_filter.mpr ⟨List.mem_singleton.mpr rfl, by decide⟩)

/-- C7: for every type filter different from `"all"`, every record kept
by the type-filter step of `applyFilters` has the filter value in its
`types` sequence (exact, case-sensitive membership). -/
theorem typeFilterStep_sound (t : String) (l : List Record) (r : Record)
    (ht : t ≠ "all") (hr : r ∈ typeFilterStep t l) :
    t ∈ r.types := by
  unfold typeFilterStep at hr
  rw [if_neg ht] at hr
  have h := (List.mem_filter.mp hr).2
  simpa using h

/-- Witness for C7: the record for id 1 survives the `"electric"`
filter and has that type. -/
theorem typeFilterStep_sound_witness :
    "electric" ∈ (simpleRec 1).types :=
  typeFilterStep_sound "electric" [simpleRec 1] (simpleRec 1) (by decide)
    (by unfold typeFilterStep
        rw [if_neg (by decide : ("electric" : String) ≠ "all")]
        exact List.mem_filter.mpr ⟨List.mem_singleton.mpr rfl, by decide⟩)

/-- C9 counterexample: the stored string `'"abc"'` parses successfully
to the JSON string `"abc"`, which is not an array of ids, yet
`loadFavorites` yields the non-empty set `{"a", "b", "c"}` — strings
are iterable, so `new Set("abc")` collects their characters — refuting
"empty set whenever the value cannot be decoded as a JSON array of
ids". -/
theorem loadFavorites_counterexample :
    isIdArray (JsValue.str "abc") = false
    ∧ loadFavorites (Stored.json (JsValue.str "abc"))
        = [JsValue.str "a", JsValue.str "b", JsValue.str "c"]
    ∧ loadFavorites (Stored.json (JsValue.str "abc")) ≠ [] := by
  refine ⟨rfl, rfl, fun h => ?_⟩
  have hlen : (loadFavorites (Stored.json (JsValue.str "abc"))).length = 3 := rfl
  rw [h] at hlen
  exact absurd hlen (by decide)

/-- C9 (amended): `loadFavorites` yields the empty favorites set when
the store key is absent and when it holds a string `JSON.parse`
rejects — the parse error is caught, never reaching the caller — and
likewise for parseable values that `new Set` cannot consume (null
yields an empty set; a number, boolean or object makes the constructor
throw, swallowed by the same catch). A parseable value that is not an
id array is otherwise handed to `new Set` as-is and may yield a
non-empty set; the id array written by `saveFavorites` loads back as
the deduplicated ids. -/
theorem loadFavorites_spec :
    loadFavorites Stored.absent = []
    ∧ loadFavorites Stored.malformed = []
    ∧ loadFavorites (Stored.json JsValue.null) = []
    ∧ loadFavorites (Stored.json (JsValue.num 5)) = []
    ∧ loadFavorites (Stored.json (JsValue.bool true)) = []
    ∧ loadFavorites (Stored.json JsValue.obj) = []
    ∧ loadFavorites (Stored.idArray [1, 2, 2, 7])
        = [JsValue.num 1, JsValue.num 2, JsValue.num 7] :=
  ⟨rfl, rfl, rfl, rfl, rfl, rfl, rfl⟩

/-- C3: the visible slice is the prefix
`filteredPokemon[0 : currentPage * 20]` (a growing prefix, not a
sliding window); a page-advance request at or beyond the last page is a
no-op leaving `currentPage` and the visible slice unchanged; and with
45 filtered records pages 1, 2, 3 show 20, 40, 45 records and a fourth
request leaves 45 visible. -/
theorem pagination_spec (st : AppState) :
    visibleSlice st = st.filteredPokemon.take (st.currentPage * pokemonPerPage)
    ∧ (totalPages st ≤ st.currentPage →
        loadMorePokemon st = st ∧ visibleSlice (loadMorePokemon st) = visibleSlice st)
    ∧ (st.filteredPokemon.length = 45 → st.currentPage = 1 → st.isLoading = false →
        (visibleSlice st).length = 20
        ∧ (visibleSlice (loadMorePokemon st)).length = 40
        ∧ (visibleSlice (loadMorePokemon (loadMorePokemon st))).length = 45
        ∧ loadMorePokemon (loadMorePokemon (loadMorePokemon st))
            = loadMorePokemon (loadMorePokemon st)
        ∧ (visibleSlice (loadMorePokemon (loadMorePokemon (loadMorePokemon st)))).length = 45) := by
  refine ⟨by simp [visibleSlice, jsSlice], ?_, ?_⟩
  · intro h
    have hno : loadMorePokemon st = st := by
      by_cases hl : st.isLoading
      · simp [loadMorePokemon, hl]
      · simp [loadMorePokemon, hl, h]
    exact ⟨hno, by rw [hno]⟩
  · intro hlen hpage hload
    cases st with
    | mk pk fp fav sto cp il fl =>
      dsimp only at hlen hpage hload
      subst hpage hload
      refine ⟨?_, ?_, ?_, ?_, ?_⟩ <;>
        simp [loadMorePokemon, totalPages, visibleSlice, jsSlice, pokemonPerPage, hlen]

/-- Witness for C3: a concrete state with 45 filtered records on page
1 shows 20, then 40, then 45 records, and a fourth page request leaves
45 visible. -/
theorem pagination_spec_witness :
    (visibleSlice st45).length = 20
    ∧ (visibleSlice (loadMorePokemon st45)).length = 40
    ∧ (visibleSlice (loadMorePokemon (loadMorePokemon st45))).length = 45
    ∧ loadMorePokemon (loadMorePokemon (loadMorePokemon st45))
        = loadMorePokemon (loadMorePokemon st45)
    ∧ (visibleSlice (loadMorePokemon (loadMorePokemon (loadMorePokemon st45)))).length = 45 :=
  (pagination_spec st45).2.2 (by decide) rfl rfl

/-- C4: `toggleFavorite` removes the id if present and adds it if
absent, persists the full set (the stored value equals the in-memory
set after the call), and its notification branch reports the new
membership; toggling an absent id twice reports `true` then `false`
and restores the original favorites set. -/
theorem toggleFavorite_spec (st : AppState) (pokemonId : Nat) :
    ((pokemonId ∈ (toggleFavorite st pokemonId).1.favorites) ↔ pokemonId ∉ st.favorites)
    ∧ (toggleFavorite st pokemonId).1.stored
        = Stored.idArray (toggleFavorite st pokemonId).1.favorites
    ∧ ((toggleFavorite st pokemonId).2 = true
        ↔ pokemonId ∈ (toggleFavorite st pokemonId).1.favorites)
    ∧ (∀ j, j ≠ pokemonId →
        (j ∈ (toggleFavorite st pokemonId).1.favorites ↔ j ∈ st.favorites))
    ∧ (pokemonId ∉ st.favorites →
        (toggleFavorite st pokemonId).2 = true
        ∧ (toggleFavorite (toggleFavorite st pokemonId).1 pokemonId).2 = false
        ∧ (toggleFavorite (toggleFavorite st pokemonId).1 pokemonId).1.favorites
            = st.favorites) := by
  by_cases hmem : st.favorites.contains pokemonId
  · have hm : pokemonId ∈ st.favorites := by simpa using hmem
    refine ⟨?_, ?_, ?_, ?_, ?_⟩
    · simp [toggleFavorite, hmem, hm, applyFilters, saveFavorites, setDelete, List.mem_filter]
    · simp [toggleFavorite, hmem, hm, applyFilters, saveFavorites]
    · simp [toggleFavorite, hmem, hm, applyFilters, saveFavorites, setDelete, List.mem_filter]
    · intro j hj
      simp [toggleFavorite, hmem, hm, applyFilters, saveFavorites, setDelete, List.mem_filter, hj]
    · intro habs
      exact absurd hm habs
  · have hm : pokemonId ∉ st.favorites := fun hc => hmem (by simpa using hc)
    have hadd : setAdd st.favorites pokemonId = st.favorites ++ [pokemonId] := by
      simp [setAdd, hm]
    have hdel : setDelete (st.favorites ++ [pokemonId]) pokemonId = st.favorites := by
      unfold setDelete
      rw [List.filter_append]
      have h1 : st.favorites.filter (fun y => decide (y ≠ pokemonId)) = st.favorites := by
        rw [List.filter_eq_self]
        intro a ha
        simp only [decide_eq_true_eq]
        rintro rfl
        exact hm ha
      rw [h1]
      simp
    refine ⟨?_, ?_, ?_, ?_, ?_⟩
    · constructor
      · intro _
        exact hm
      · intro _
        simp [toggleFavorite, hmem, hm, applyFilters, saveFavorites, hadd]
    · simp [toggleFavorite, hmem, hm, applyFilters, saveFavorites]
    · simp [toggleFavorite, hmem, hm, applyFilters, saveFavorites, hadd]
    · intro j hj
      simp [toggleFavorite, hmem, hm, applyFilters, saveFavorites, hadd, hj]
    · intro _
      refine ⟨by simp [toggleFavorite, hmem, hm], ?_, ?_⟩
      · simp [toggleFavorite, hmem, hm, applyFilters, saveFavorites, hadd]
      · simp [toggleFavorite, hmem, hm, applyFilters, saveFavorites, hadd, hdel]

/-- Witness for C4: toggling id 7 twice from the initial (empty)
favorites set reports `true` then `false` and restores the empty
set. -/
theorem toggleFavorite_spec_witness :
    (toggleFavorite initState 7).2 = true
    ∧ (toggleFavorite (toggleFavorite initState 7).1 7).2 = false
    ∧ (toggleFavorite (toggleFavorite initState 7).1 7).1.favorites = initState.favorites :=
  (toggleFavorite_spec initState 7).2.2.2.2 (by decide)

set_option maxRecDepth 100000 in
set_option maxHeartbeats 1000000 in
/-- C5 (code bug): after `loadPokemon` finishes, `applyFilters` has run
only for the first batch (`if (i === 1)` in the source), so with the
deployment's 151 ids all fetching successfully the accumulated record
set holds 151 records while the filtered set still holds only the
first batch's 20 — the engine's filtered set does not equal the
recomputation over the full record set, contradicting the spec's
requirement that recompute follow every batch arrival. -/
theorem loadPokemon_missing_recompute :
    (loadPokemonState fetchAllOk initState).pokemon.length = 151
    ∧ (loadPokemonState fetchAllOk initState).filteredPokemon.length = 20
    ∧ (computeFiltered (loadPokemonState fetchAllOk initState).pokemon
          (loadPokemonState fetchAllOk initState).filters
          (loadPokemonState fetchAllOk initState).favorites).length = 151
    ∧ (loadPokemonState fetchAllOk initState).filteredPokemon
        ≠ computeFiltered (loadPokemonState fetchAllOk initState).pokemon
            (loadPokemonState fetchAllOk initState).filters
            (loadPokemonState fetchAllOk initState).favorites := by
  refine ⟨by decide, by decide, by decide, fun h => ?_⟩
  have h20 : (loadPokemonState fetchAllOk initState).filteredPokemon.length = 20 := by decide
  have h151 : (computeFiltered (loadPokemonState fetchAllOk initState).pokemon
      (loadPokemonState fetchAllOk initState).filters
      (loadPokemonState fetchAllOk initState).favorites).length = 151 := by decide
  rw [h, h151] at h20
  exact absurd h20 (by decide)

/-- C6: the recompute of `applyFilters` is a deterministic pure
function of (record set, filter state, favorites set) — two states
agreeing on those three produce the same filtered set — and running
`applyFilters` twice with no state change in between yields a state
identical to running it once. -/
theorem applyFilters_idempotent (st st2 : AppState)
    (hp : st2.pokemon = st.pokemon) (hf : st2.filters = st.filters)
    (hv : st2.favorites = st.favorites) :
    applyFilters (applyFilters st) = applyFilters st
    ∧ (applyFilters st).filteredPokemon = computeFiltered st.pokemon st.filters st.favorites
    ∧ (applyFilters st2).filteredPokemon = (applyFilters st).filteredPokemon :=
  ⟨by simp [applyFilters], rfl, by simp [applyFilters, hp, hf, hv]⟩

/-- Witness for C6 at the initial state. -/
theorem applyFilters_idempotent_witness :
    applyFilters (applyFilters initState) = applyFilters initState
    ∧ (applyFilters initState).filteredPokemon
        = computeFiltered initState.pokemon initState.filters initState.favorites
    ∧ (applyFilters initState).filteredPokemon = (applyFilters initState).filteredPokemon :=
  applyFilters_idempotent initState initState rfl rfl rfl

/-- C8: each of the four filter-field events (search text, type
filter, sort key, favorites-only toggle) ends in `applyFilters` and so
leaves `currentPage = 1`, while a page advance on a non-final page
(with no load in flight) changes nothing but incrementing
`currentPage`. -/
theorem currentPage_reset_spec (st : AppState) (raw t : String) (k : SortKey) :
    (step st (Event.searchInput raw)).currentPage = 1
    ∧ (step st Event.clearSearch).currentPage = 1
    ∧ (step st (Event.typeChange t)).currentPage = 1
    ∧ (step st (Event.sortChange k)).currentPage = 1
    ∧ (step st Event.toggleFavoritesView).currentPage = 1
    ∧ (st.isLoading = false → st.currentPage < totalPages st →
        step st Event.loadMore = { st with currentPage := st.currentPage + 1 }) := by
  refine ⟨rfl, rfl, rfl, rfl, rfl, ?_⟩
  intro hload hpage
  show loadMorePokemon st = _
  unfold loadMorePokemon
  rw [hload]
  simp [Nat.not_le.mpr hpage]

/-- Witness for C8: a page advance from page 1 of 3 increments the
page and changes nothing else. -/
theorem currentPage_reset_spec_witness :
    st45.isLoading = false
    ∧ st45.currentPage < totalPages st45
    ∧ step st45 Event.loadMore = { st45 with currentPage := st45.currentPage + 1 } :=
  ⟨rfl, by decide,
    (currentPage_reset_spec st45 "PIKA" "fire" SortKey.name).2.2.2.2.2 rfl (by decide)⟩

/-- C10: when every record of the full set has a non-empty `types`
sequence, the by-primary-category sort comparator never accesses a
missing `types[0]` and `applyFilters` completes without error for
every filter state; conversely the only error branch is that
comparison — a failure implies the sort key was by-type and some
record had no types. -/
theorem sortByType_safety (pokemon : List Record) (f : Filters) (favorites : List Nat) :
    ((∀ r ∈ pokemon, r.types ≠ []) →
        computeFilteredE pokemon f favorites = some (computeFiltered pokemon f favorites))
    ∧ (computeFilteredE pokemon f favorites = none →
        f.sort = SortKey.type ∧ ∃ r ∈ pokemon, r.types = []) := by
  constructor
  · intro h
    unfold computeFilteredE computeFiltered sortStepE sortStep
    cases hk : f.sort with
    | number => rfl
    | name => rfl
    | type =>
        rw [if_pos]
        rw [List.all_eq_true]
        intro r hr
        have hrp : r ∈ pokemon :=
          mem_of_mem_searchFilterStep
            (mem_of_mem_typeFilterStep (mem_of_mem_favoritesFilterStep hr))
        simp [List.isEmpty_iff, h r hrp]
  · intro h
    unfold computeFilteredE sortStepE at h
    cases hk : f.sort with
    | number => rw [hk] at h; cases h
    | name => rw [hk] at h; cases h
    | type =>
        rw [hk] at h
        refine ⟨rfl, ?_⟩
        by_cases hall : (favoritesFilterStep f.showFavorites favorites
            (typeFilterStep f.type (searchFilterStep f.search pokemon))).all
              (fun r => !r.types.isEmpty)
        · rw [if_pos hall] at h
          cases h
        · rw [List.all_eq_true] at hall
          push_neg at hall
          obtain ⟨r, hr, hne⟩ := hall
          refine ⟨r, mem_of_mem_searchFilterStep
            (mem_of_mem_typeFilterStep (mem_of_mem_favoritesFilterStep hr)), ?_⟩
          simpa [List.isEmpty_iff] using hne

/-- Witness for C10: a one-record set whose record has a type sorts by
type without error. -/
theorem sortByType_safety_witness :
    computeFilteredE [simpleRec 1]
        { search := "", type := "all", sort := SortKey.type, showFavorites := false } []
      = some (computeFiltered [simpleRec 1]
        { search := "", type := "all", sort := SortKey.type, showFavorites := false } []) :=
  (sortByType_safety [simpleRec 1]
    { search := "", type := "all", sort := SortKey.type, showFavorites := false } []).1
    (by decide)

end Pokedex
